import Mathlib

/-!
Verification development for the ModbusLib protocol engines.

The repository ships the server-port base class (unit-map handling) and an
extensive test suite; the server-resource and client-port state machines
themselves are modelled here from the specification, with every behaviour the
tests pin down (validation ordering, signal counts, wire staging, the retry
loop's buffer discipline) reflected faithfully.  Machine integers are Nat with
explicit bounds; request/response bodies are byte lists (each entry < 256 on
real wires, decoded big-endian).
-/

namespace ModbusLib

/-- Status model: `Good`, `Processing` and the `Bad*` taxonomy
(protocol-exception band, transport band, framing band). -/
inductive StatusCode where
  | Good
  | Processing
  | Uncertain
  | Bad
  | BadIllegalFunction
  | BadIllegalDataAddress
  | BadIllegalDataValue
  | BadServerFailure
  | BadAcknowledge
  | BadServerBusy
  | BadNegativeAcknowledge
  | BadMemoryParityError
  | BadGatewayPathUnavailable
  | BadGatewayTargetNoResponse
  | BadNotCorrectRequest
  | BadNotCorrectResponse
  | BadPortClosed
  | BadTcpWrite
  | BadTcpDisconnect
  | BadSerialOpen
  | BadSerialWriteTimeout
  | BadSerialReadTimeout
  | BadCrc
  | BadWriteBufferOverflow
deriving DecidableEq, Repr

/-- `StatusIsGood` classifier: exactly the `Good` status. -/
def StatusIsGood : StatusCode → Bool
  | .Good => true
  | _ => false

/-- `StatusIsProcessing` classifier. -/
def StatusIsProcessing : StatusCode → Bool
  | .Processing => true
  | _ => false

/-- `StatusIsBad` classifier: neither good nor processing nor uncertain. -/
def StatusIsBad (s : StatusCode) : Bool :=
  !(StatusIsGood s || StatusIsProcessing s || s == .Uncertain)

/-- Transport-class `Bad*` statuses (raised by ports, retried by the client). -/
def isTransportStatus : StatusCode → Bool
  | .BadPortClosed | .BadTcpWrite | .BadTcpDisconnect | .BadSerialOpen
  | .BadSerialWriteTimeout | .BadSerialReadTimeout | .BadCrc
  | .BadWriteBufferOverflow => true
  | _ => false

/-- Protocol-exception band: wire codes 0x01..0x0B carried by `function | 0x80`
responses. -/
def exceptionCode : StatusCode → Option Nat
  | .BadIllegalFunction => some 0x01
  | .BadIllegalDataAddress => some 0x02
  | .BadIllegalDataValue => some 0x03
  | .BadServerFailure => some 0x04
  | .BadAcknowledge => some 0x05
  | .BadServerBusy => some 0x06
  | .BadNegativeAcknowledge => some 0x07
  | .BadMemoryParityError => some 0x08
  | .BadGatewayPathUnavailable => some 0x0A
  | .BadGatewayTargetNoResponse => some 0x0B
  | _ => none

/-- Maximum quantity of coils/discrete inputs per bounded request. -/
def MB_MAX_DISCRETS : Nat := 2000

/-- Maximum quantity of 16-bit registers per bounded request. -/
def MB_MAX_REGISTERS : Nat := 125

/-- Big-endian 16-bit decode of two wire bytes. -/
def beWord (hi lo : Nat) : Nat := hi * 256 + lo

/-- Bytes needed to pack `n` bits (coils), little-endian within each byte. -/
def bitByteCount (n : Nat) : Nat := (n + 7) / 8

/-- Result of the server-side pre-dispatch validation of one request body. -/
inductive CheckResult where
  | notCorrect
  | illegalDataValue
  | illegalFunction
  | accept
deriving DecidableEq, Repr

/-- Modelled from the spec: the per-function request validation run by the
server before dispatching to the device (the `ModbusServerResource`
implementation file is not in the tree; only its tests are).  Spec section 4.2
gives each function's body length, byte-count consistency rule and quantity
bound; the ordering (size first, then byte-count consistency, then quantity
bound) is the framing-first ordering the spec's tie-break rules and the
repository's tests pin down.  `body` is the decoded request body, whose length
is the size reported by the port. -/
def checkRequest (func : Nat) (body : List Nat) : CheckResult :=
  match func with
  | 0x01 | 0x02 =>
    if body.length = 4 then
      let cnt := beWord (body.getD 2 0) (body.getD 3 0)
      if 1 ≤ cnt ∧ cnt ≤ MB_MAX_DISCRETS then .accept else .illegalDataValue
    else .notCorrect
  | 0x03 | 0x04 =>
    if body.length = 4 then
      let cnt := beWord (body.getD 2 0) (body.getD 3 0)
      if 1 ≤ cnt ∧ cnt ≤ MB_MAX_REGISTERS then .accept else .illegalDataValue
    else .notCorrect
  | 0x05 =>
    if body.length = 4 then
      let v := beWord (body.getD 2 0) (body.getD 3 0)
      if v = 0x0000 ∨ v = 0xFF00 then .accept else .notCorrect
    else .notCorrect
  | 0x06 =>
    if body.length = 4 then .accept else .notCorrect
  | 0x07 | 0x0B | 0x0C | 0x11 =>
    if body.length = 0 then .accept else .notCorrect
  | 0x08 =>
    if 2 ≤ body.length then .accept else .notCorrect
  | 0x0F =>
    if 5 ≤ body.length then
      let cnt := beWord (body.getD 2 0) (body.getD 3 0)
      let bc := body.getD 4 0
      if body.length = 5 + bc then
        if bc = bitByteCount cnt then
          if 1 ≤ cnt ∧ cnt ≤ MB_MAX_DISCRETS then .accept else .illegalDataValue
        else .notCorrect
      else .notCorrect
    else .notCorrect
  | 0x10 =>
    if 5 ≤ body.length then
      let cnt := beWord (body.getD 2 0) (body.getD 3 0)
      let bc := body.getD 4 0
      if body.length = 5 + bc then
        if bc = 2 * cnt then
          if 1 ≤ cnt ∧ cnt ≤ MB_MAX_REGISTERS then .accept else .illegalDataValue
        else .notCorrect
      else .notCorrect
    else .notCorrect
  | 0x16 =>
    if body.length = 6 then .accept else .notCorrect
  | 0x17 =>
    if 9 ≤ body.length then
      let rcnt := beWord (body.getD 2 0) (body.getD 3 0)
      let wcnt := beWord (body.getD 6 0) (body.getD 7 0)
      let bc := body.getD 8 0
      if body.length = 9 + bc then
        if bc = 2 * wcnt then
          if 1 ≤ rcnt ∧ rcnt ≤ MB_MAX_REGISTERS ∧ 1 ≤ wcnt ∧ wcnt ≤ MB_MAX_REGISTERS
          then .accept else .illegalDataValue
        else .notCorrect
      else .notCorrect
    else .notCorrect
  | 0x18 =>
    if body.length = 2 then .accept else .notCorrect
  | _ => .illegalFunction

/-- Request-body lengths that are fixed per function code (spec section 4.2
table): the four-byte read/write-single bodies, the empty bodies, mask-write
and FIFO-queue. Variable-length functions map to `none`. -/
def fixedBodyLen (f : Nat) : Option Nat :=
  if f = 0x01 ∨ f = 0x02 ∨ f = 0x03 ∨ f = 0x04 ∨ f = 0x05 ∨ f = 0x06 then some 4
  else if f = 0x07 ∨ f = 0x0B ∨ f = 0x0C ∨ f = 0x11 then some 0
  else if f = 0x16 then some 6
  else if f = 0x18 then some 2
  else none

/-- Input consumed by one blocking `process()` call of the server machine:
either the port's `read()` step failed, or `readBuffer` header parsing failed
after a good read, or a decoded request frame arrived. -/
inductive ServerInput where
  | readError (s : StatusCode)
  | bufferError (s : StatusCode)
  | request (unit func : Nat) (body : List Nat)

/-- Everything one server transaction produces: the `process()` return value,
whether the device handler ran, the staged wire response (function byte and
body handed to `writeBuffer`, or none), the number of Rx/Tx/Error/Completed
signals fired, the status carried by the Completed signal, and whether the
machine is back in the read state afterwards. -/
structure ServerOutcome where
  status : StatusCode
  deviceCalled : Bool
  wire : Option (Nat × List Nat)
  rxCount : Nat
  txCount : Nat
  errorCount : Nat
  completedCount : Nat
  completedStatus : StatusCode
  backToRead : Bool
deriving DecidableEq, Repr

/-- Modelled from the spec: one full blocking transaction of the server state
machine (`ModbusServerResource::process()` is not in the tree).  Spec sections
4.3 and 7: a port read failure raises Error+Completed with no frame touched; a
header-parse failure counts the Rx and raises Error+Completed; a framing-bad
request is silently discarded (`NotCorrectRequest`, no wire response); a
bound-bad request stages the 0x03 exception; an accepted request dispatches to
the device, whose status selects the success echo, a mapped exception response,
the generic `ServerFailure` (0x04) exception, or — for
`GatewayPathUnavailable` only — a silent drop completing `Good`.  `dev` is the
device handler's status paired with the encoded success-response body. -/
def serverStep (dev : StatusCode × List Nat) (inp : ServerInput) : ServerOutcome :=
  match inp with
  | .readError s =>
    ⟨s, false, none, 0, 0, 1, 1, s, false⟩
  | .bufferError s =>
    ⟨s, false, none, 1, 0, 1, 1, s, true⟩
  | .request _unit func body =>
    match checkRequest func body with
    | .notCorrect =>
      ⟨.BadNotCorrectRequest, false, none, 1, 0, 1, 1, .BadNotCorrectRequest, true⟩
    | .illegalDataValue =>
      ⟨.BadIllegalDataValue, false, some (func + 0x80, [0x03]), 1, 1, 1, 1,
        .BadIllegalDataValue, true⟩
    | .illegalFunction =>
      ⟨.BadIllegalFunction, false, some (func + 0x80, [0x01]), 1, 1, 1, 1,
        .BadIllegalFunction, true⟩
    | .accept =>
      if StatusIsGood dev.1 then
        ⟨.Good, true, some (func, dev.2), 1, 1, 0, 1, .Good, true⟩
      else if dev.1 = .BadGatewayPathUnavailable then
        ⟨.Good, true, none, 1, 0, 0, 1, .Good, true⟩
      else
        match exceptionCode dev.1 with
        | some c => ⟨dev.1, true, some (func + 0x80, [c]), 1, 1, 1, 1, dev.1, true⟩
        | none => ⟨dev.1, true, some (func + 0x80, [0x04]), 1, 1, 1, 1, dev.1, true⟩

/-- Big-endian body of a read-class request: offset then count. -/
def readRequestBody (offset count : Nat) : List Nat :=
  [offset / 256, offset % 256, count / 256, count % 256]

/-- Body of a WriteMultipleCoils (0x0F) request: offset, count, byte count,
packed coil bytes. -/
def writeCoilsBody (offset count bc : Nat) (data : List Nat) : List Nat :=
  [offset / 256, offset % 256, count / 256, count % 256, bc] ++ data

/-- Body of a WriteMultipleRegisters (0x10) request: offset, count, byte count,
register bytes. -/
def writeRegsBody (offset count bc : Nat) (data : List Nat) : List Nat :=
  [offset / 256, offset % 256, count / 256, count % 256, bc] ++ data

/-- Body of a ReadWriteMultipleRegisters (0x17) request: read offset/count,
write offset/count, byte count, write register bytes. -/
def readWriteRegsBody (rOff rCnt wOff wCnt bc : Nat) (data : List Nat) : List Nat :=
  [rOff / 256, rOff % 256, rCnt / 256, rCnt % 256,
   wOff / 256, wOff % 256, wCnt / 256, wCnt % 256, bc] ++ data

/-- Everything one client transaction produces: the helper's return value, how
many times `write_buffer`, `write()` and `read()` were invoked, the
`last_tries()` value, the Tx/Rx/Error/Completed signal counts and the status
carried by Completed. -/
structure ClientOutcome where
  status : StatusCode
  writeBufferCalls : Nat
  writeCalls : Nat
  readCalls : Nat
  lastTries : Nat
  txCount : Nat
  rxCount : Nat
  errorCount : Nat
  completedCount : Nat
  completedStatus : StatusCode
deriving DecidableEq, Repr

/-- Read-retry loop of the client: attempt index and remaining tries; returns
the number of attempts consumed and the final `read()` status.  Each attempt
re-issues `write()` then `read()`; a non-good read with tries remaining loops. -/
def clientReadGo (readRes : Nat → StatusCode) : Nat → Nat → Nat × StatusCode
  | _, 0 => (0, .Good)
  | i, rem + 1 =>
    let s := readRes i
    if StatusIsGood s then (1, s)
    else if rem = 0 then (1, s)
    else
      let r := clientReadGo readRes (i + 1) rem
      (r.1 + 1, r.2)

/-- Modelled from the spec: one full blocking client transaction
(`ModbusClientPort`'s implementation is not in the tree).  Spec section 4.4:
the helper encodes the request (`write_buffer` once — the repository's retry
test expects `writeBuffer` to be called exactly once per transaction even
across retries), drives write-then-read, returns `Good` right after a good
`write()` when the unit is 0 and broadcast is enabled (no read, Tx but no Rx),
and otherwise retries the read step up to `tries` attempts, re-issuing
`write()` each attempt. `last_tries()` reports attempts used. -/
def clientTransact (tries : Nat) (broadcastEnabled : Bool) (unit : Nat)
    (writeRes : StatusCode) (readRes : Nat → StatusCode) : ClientOutcome :=
  if StatusIsGood writeRes then
    if unit = 0 && broadcastEnabled then
      ⟨.Good, 1, 1, 0, 1, 1, 0, 0, 1, .Good⟩
    else
      let r := clientReadGo readRes 0 tries
      if StatusIsGood r.2 then
        ⟨.Good, 1, r.1, r.1, r.1, r.1, 1, 0, 1, .Good⟩
      else
        ⟨r.2, 1, r.1, r.1, r.1, r.1, 0, 1, 1, r.2⟩
  else
    ⟨writeRes, 1, 1, 0, 1, 0, 0, 1, 1, writeRes⟩

/-- State of the client-port multiplexer shared by several logical clients:
the current owner (a client identifier), the index of the next port `read()`
result to consume, and the cumulative Tx/Rx/Completed signal counts. -/
structure MuxState where
  owner : Option Nat
  readIdx : Nat
  txCount : Nat
  rxCount : Nat
  completedCount : Nat
deriving DecidableEq, Repr

/-- Modelled from the spec: one helper call by client `c` on the shared client
port over a non-blocking transport (the multiplexer implementation is not in
the tree).  Spec sections 4.4-4.5: a caller that is not the current owner
returns `Processing` untouched; a fresh caller claims the port, stages and
writes the request (Tx), then steps the read; the owner's call steps the
in-flight read.  A good read completes the transaction (Rx, Completed) and
clears ownership; a processing read keeps ownership; a bad read terminates the
transaction (Completed) and clears ownership. -/
def muxCall (readRes : Nat → StatusCode) (st : MuxState) (c : Nat) :
    MuxState × StatusCode :=
  match st.owner with
  | some o =>
    if o = c then
      let s := readRes st.readIdx
      let st1 := { st with readIdx := st.readIdx + 1 }
      if StatusIsGood s then
        ({ st1 with
            owner := none
            rxCount := st1.rxCount + 1
            completedCount := st1.completedCount + 1 }, .Good)
      else if StatusIsProcessing s then
        (st1, .Processing)
      else
        ({ st1 with
            owner := none
            completedCount := st1.completedCount + 1 }, s)
    else (st, .Processing)
  | none =>
    let st1 := { st with txCount := st.txCount + 1 }
    let s := readRes st1.readIdx
    let st2 := { st1 with readIdx := st1.readIdx + 1 }
    if StatusIsGood s then
      ({ st2 with
          rxCount := st2.rxCount + 1
          completedCount := st2.completedCount + 1 }, .Good)
    else if StatusIsProcessing s then
      ({ st2 with owner := some c }, .Processing)
    else
      ({ st2 with completedCount := st2.completedCount + 1 }, s)

/-- Runs a sequence of helper calls (client identifiers, in order) against the
shared port, collecting each call's return status. -/
def muxRun (readRes : Nat → StatusCode) (st : MuxState) :
    List Nat → MuxState × List StatusCode
  | [] => (st, [])
  | c :: rest =>
    let r := muxCall readRes st c
    let rr := muxRun readRes r.1 rest
    (rr.1, r.2 :: rr.2)

/-- The port `read()` schedule of the three-client multiplexer test:
Processing then Good, three times over. -/
def muxTestSchedule (i : Nat) : StatusCode :=
  [StatusCode.Processing, .Good, .Processing, .Good, .Processing, .Good].getD i .Good

/-- Fresh multiplexer state: no owner, no signals fired. -/
def muxInit : MuxState := ⟨none, 0, 0, 0, 0⟩

/-- Server outcome of a framing-bad request: `NotCorrectRequest`, silently
discarded (no wire response, no Tx), one Error and one Completed signal. -/
def notCorrectOutcome : ServerOutcome :=
  ⟨.BadNotCorrectRequest, false, none, 1, 0, 1, 1, .BadNotCorrectRequest, true⟩

/-- Server outcome of a quantity-bound violation: `BadIllegalDataValue`
returned and the staged `function | 0x80` exception frame with one-byte body
0x03. -/
def illegalOutcome (func : Nat) : ServerOutcome :=
  ⟨.BadIllegalDataValue, false, some (func + 0x80, [0x03]), 1, 1, 1, 1,
    .BadIllegalDataValue, true⟩

/-- Size in bytes of the server's unit map (source: `MB_UNITMAP_SIZE`). -/
def MB_UNITMAP_SIZE : Nat := 32

/-- Bit `unit mod 8` of byte `unit / 8` of the 32-byte map (the
`MB_UNITMAP_GET_BIT` macro; bitset over 256 unit ids, bit set means unit
accepted, little-endian bits within each byte). -/
def unitmapGetBit (m : List Nat) (unit : Nat) : Bool :=
  (m.getD (unit / 8) 0) >>> (unit % 8) % 2 = 1

/-- Writes bit `i` of one map byte (the `MB_UNITMAP_SET_BIT` macro ORs the
mask in or ANDs its complement, on a uint8_t). -/
def setBitInByte (b i : Nat) (enable : Bool) : Nat :=
  if enable then b ||| (1 <<< i) else b &&& (255 ^^^ (1 <<< i))

/-- Updates the map byte holding bit `unit`. -/
def unitmapSetBit (m : List Nat) (unit : Nat) (enable : Bool) : List Nat :=
  m.set (unit / 8) (setBitInByte (m.getD (unit / 8) 0) (unit % 8) enable)

/-- The server-port settings relevant to unit acceptance
(`ModbusServerPortPrivate::settings`): the broadcast flag and the optional
32-byte unit map (`nullptr` modelled as `none`). -/
structure ServerPortSettings where
  broadcastEnabled : Bool
  unitmap : Option (List Nat)
deriving DecidableEq, Repr

/-- `ModbusServerPortPrivate::isBroadcast`: unit 0 while broadcast enabled. -/
def isBroadcast (s : ServerPortSettings) (unit : Nat) : Bool :=
  unit == 0 && s.broadcastEnabled

/-- `ModbusServerPortPrivate::isUnitEnabled`: accept when the map is null or
the unit is broadcast; otherwise read the unit's bit from the map. -/
def isUnitEnabled (s : ServerPortSettings) (unit : Nat) : Bool :=
  match s.unitmap with
  | none => true
  | some m => isBroadcast s unit || unitmapGetBit m unit

/-- `ModbusServerPortPrivate::setUnitEnabled`: a null map is first replaced by
a freshly allocated all-zero 32-byte map, then the unit's bit is written. -/
def setUnitEnabled (s : ServerPortSettings) (unit : Nat) (enable : Bool) :
    ServerPortSettings :=
  let m := s.unitmap.getD (List.replicate MB_UNITMAP_SIZE 0)
  { s with unitmap := some (unitmapSetBit m unit enable) }

end ModbusLib

namespace ModbusLib

lemma beWord_split (c : Nat) : beWord (c / 256) (c % 256) = c := by
  simp only [beWord]; omega

lemma transport_not_good (s : StatusCode) (h : isTransportStatus s = true) :
    StatusIsGood s = false := by
  cases s <;> simp_all [isTransportStatus, StatusIsGood]

lemma serverStep_illegal (dev : StatusCode × List Nat) (u f : Nat)
    (body : List Nat) (h : checkRequest f body = .illegalDataValue) :
    serverStep dev (.request u f body) = illegalOutcome f := by
  simp [serverStep, h, illegalOutcome]

lemma serverStep_notCorrect (dev : StatusCode × List Nat) (u f : Nat)
    (body : List Nat) (h : checkRequest f body = .notCorrect) :
    serverStep dev (.request u f body) = notCorrectOutcome := by
  simp [serverStep, h, notCorrectOutcome]

lemma checkRequest_read_bits (f o c : Nat) (hf : f = 1 ∨ f = 2) :
    checkRequest f (readRequestBody o c) =
      (if 1 ≤ c ∧ c ≤ MB_MAX_DISCRETS then .accept else .illegalDataValue) := by
  rcases hf with rfl | rfl <;>
    simp [checkRequest, readRequestBody, beWord_split]

lemma checkRequest_read_regs (f o c : Nat) (hf : f = 3 ∨ f = 4) :
    checkRequest f (readRequestBody o c) =
      (if 1 ≤ c ∧ c ≤ MB_MAX_REGISTERS then .accept else .illegalDataValue) := by
  rcases hf with rfl | rfl <;>
    simp [checkRequest, readRequestBody, beWord_split]

lemma checkRequest_write_coils (o c : Nat) (data : List Nat)
    (hd : data.length = bitByteCount c) :
    checkRequest 0x0F (writeCoilsBody o c (bitByteCount c) data) =
      (if 1 ≤ c ∧ c ≤ MB_MAX_DISCRETS then .accept else .illegalDataValue) := by
  simp [checkRequest, writeCoilsBody, beWord_split, hd]
  intro h
  exact absurd (by omega) h

lemma checkRequest_write_regs (o c : Nat) (data : List Nat)
    (hd : data.length = 2 * c) :
    checkRequest 0x10 (writeRegsBody o c (2 * c) data) =
      (if 1 ≤ c ∧ c ≤ MB_MAX_REGISTERS then .accept else .illegalDataValue) := by
  simp [checkRequest, writeRegsBody, beWord_split, hd]
  intro h
  exact absurd (by omega) h

lemma checkRequest_rw_regs (rO rC wO wC : Nat) (data : List Nat)
    (hd : data.length = 2 * wC) :
    checkRequest 0x17 (readWriteRegsBody rO rC wO wC (2 * wC) data) =
      (if 1 ≤ rC ∧ rC ≤ MB_MAX_REGISTERS ∧ 1 ≤ wC ∧ wC ≤ MB_MAX_REGISTERS
       then .accept else .illegalDataValue) := by
  simp [checkRequest, readWriteRegsBody, beWord_split, hd]
  intro h
  exact absurd (by omega) h

lemma checkRequest_rw_regs_bc_mismatch (rO rC wO wC bc : Nat) (data : List Nat)
    (hd : data.length = bc) (hbc : bc ≠ 2 * wC) :
    checkRequest 0x17 (readWriteRegsBody rO rC wO wC bc data) = .notCorrect := by
  simp [checkRequest, readWriteRegsBody, beWord_split, hd, hbc]

lemma clientReadGo_step (rres : Nat → StatusCode) (i rem : Nat)
    (hb : StatusIsGood (rres i) = false) (hrem : rem ≠ 0) :
    clientReadGo rres i (rem + 1) =
      ((clientReadGo rres (i + 1) rem).1 + 1,
        (clientReadGo rres (i + 1) rem).2) := by
  conv_lhs => rw [clientReadGo]
  simp [hb, hrem]

lemma clientReadGo_hit (rres : Nat → StatusCode) (i rem : Nat)
    (hg : StatusIsGood (rres i) = true) :
    clientReadGo rres i (rem + 1) = (1, rres i) := by
  conv_lhs => rw [clientReadGo]
  simp [hg]

lemma clientReadGo_first_good (rres : Nat → StatusCode) :
    ∀ (n i rem : Nat), n < rem →
      (∀ j, j < n → StatusIsGood (rres (i + j)) = false) →
      StatusIsGood (rres (i + n)) = true →
      clientReadGo rres i rem = (n + 1, rres (i + n)) := by
  intro n
  induction n with
  | zero =>
    intro i rem hrem _ hg
    obtain ⟨r, rfl⟩ := Nat.exists_eq_succ_of_ne_zero (by omega : rem ≠ 0)
    rw [Nat.add_zero] at hg
    rw [Nat.add_zero]
    exact clientReadGo_hit rres i r hg
  | succ n ih =>
    intro i rem hrem hbad hg
    obtain ⟨r, rfl⟩ := Nat.exists_eq_succ_of_ne_zero (by omega : rem ≠ 0)
    have hb0 : StatusIsGood (rres i) = false := by simpa using hbad 0 (by omega)
    rw [clientReadGo_step rres i r hb0 (by omega)]
    have hrec := ih (i + 1) r (by omega)
      (fun j hj => by
        have := hbad (j + 1) (by omega)
        simpa [Nat.add_assoc, Nat.add_comm 1 j] using this)
      (by
        have hi : i + 1 + n = i + (n + 1) := by omega
        rw [hi]
        exact hg)
    rw [hrec]
    have hi : i + 1 + n = i + (n + 1) := by omega
    rw [hi]

lemma clientReadGo_all_bad (rres : Nat → StatusCode) :
    ∀ (n i : Nat), (∀ j, j ≤ n → StatusIsGood (rres (i + j)) = false) →
      clientReadGo rres i (n + 1) = (n + 1, rres (i + n)) := by
  intro n
  induction n with
  | zero =>
    intro i hbad
    have hb0 : StatusIsGood (rres i) = false := by simpa using hbad 0 (by omega)
    conv_lhs => rw [clientReadGo]
    simp [hb0]
  | succ n ih =>
    intro i hbad
    have hb0 : StatusIsGood (rres i) = false := by simpa using hbad 0 (by omega)
    rw [clientReadGo_step rres i (n + 1) hb0 (by omega)]
    have hrec := ih (i + 1) (fun j hj => by
      have := hbad (j + 1) (by omega)
      simpa [Nat.add_assoc, Nat.add_comm 1 j] using this)
    rw [hrec]
    have hi : i + 1 + n = i + (n + 1) := by omega
    rw [hi]

lemma shiftBit (a b : Nat) (ha : a < 8) (hb : b < 8) :
    ((1 <<< a) >>> b) % 2 = if a = b then 1 else 0 := by
  interval_cases a <;> interval_cases b <;> rfl

lemma getBit_set_zero (u v : Nat) (e : Bool) (hu : u < 256) (hv : v < 256) :
    unitmapGetBit (unitmapSetBit (List.replicate MB_UNITMAP_SIZE 0) u e) v =
      (decide (v = u) && e) := by
  have hu8 : u / 8 < 32 := by omega
  have hv8 : v / 8 < 32 := by omega
  have hum : u % 8 < 8 := Nat.mod_lt _ (by norm_num)
  have hvm : v % 8 < 8 := Nat.mod_lt _ (by norm_num)
  unfold unitmapGetBit unitmapSetBit MB_UNITMAP_SIZE
  have hgd : ∀ x : Nat,
      ((List.replicate 32 0).set (u / 8) x).getD (v / 8) 0 =
        if u / 8 = v / 8 then x else 0 := by
    intro x
    rw [List.getD_eq_getElem _ 0 (by simpa using hv8)]
    by_cases hij : u / 8 = v / 8
    · rw [if_pos hij, hij, List.getElem_set_self]
    · rw [if_neg hij, List.getElem_set_ne hij, List.getElem_replicate]
  have hrep : (List.replicate 32 0).getD (u / 8) 0 = 0 := by
    rw [List.getD_eq_getElem _ 0 (by simpa using hu8), List.getElem_replicate]
  rw [hgd, hrep]
  by_cases hij : u / 8 = v / 8
  · rw [if_pos hij]
    cases e with
    | false =>
      have hz : setBitInByte 0 (u % 8) false = 0 := by
        simp [setBitInByte, Nat.zero_and]
      rw [hz]
      simp
    | true =>
      have hx : setBitInByte 0 (u % 8) true = 1 <<< (u % 8) := by
        simp [setBitInByte, Nat.zero_or]
      rw [hx]
      by_cases hm : u % 8 = v % 8
      · have hvu : v = u := by omega
        simp [shiftBit _ _ hum hvm, hm, hvu]
      · have hvu : ¬v = u := by omega
        simp [shiftBit _ _ hum hvm, hm, hvu]
  · rw [if_neg hij]
    have hvu : ¬v = u := by omega
    simp [hvu]

/-- Claim C1: for every bounded-quantity function (ReadCoils,
ReadDiscreteInputs, ReadHoldingRegisters, ReadInputRegisters,
WriteMultipleCoils, WriteMultipleRegisters, ReadWriteMultipleRegisters), a
well-framed request whose count field exceeds the function's bound
(MB_MAX_DISCRETS = 2000 for bit functions, MB_MAX_REGISTERS = 125 for register
functions) makes `process()` return `BadIllegalDataValue`, never calls the
device handler, and stages the wire exception with function byte
`function | 0x80` and one-byte body 0x03. -/
theorem claim1_bounded_quantity_exception
    (dev : StatusCode × List Nat) (unit offset count : Nat) :
    (MB_MAX_DISCRETS < count →
      serverStep dev (.request unit 0x01 (readRequestBody offset count)) =
        illegalOutcome 0x01 ∧
      serverStep dev (.request unit 0x02 (readRequestBody offset count)) =
        illegalOutcome 0x02) ∧
    (MB_MAX_REGISTERS < count →
      serverStep dev (.request unit 0x03 (readRequestBody offset count)) =
        illegalOutcome 0x03 ∧
      serverStep dev (.request unit 0x04 (readRequestBody offset count)) =
        illegalOutcome 0x04) ∧
    (∀ data : List Nat, data.length = bitByteCount count →
      MB_MAX_DISCRETS < count →
      serverStep dev (.request unit 0x0F
        (writeCoilsBody offset count (bitByteCount count) data)) =
        illegalOutcome 0x0F) ∧
    (∀ data : List Nat, data.length = 2 * count → MB_MAX_REGISTERS < count →
      serverStep dev (.request unit 0x10
        (writeRegsBody offset count (2 * count) data)) = illegalOutcome 0x10) ∧
    (∀ (rOff rCnt wOff wCnt : Nat) (data : List Nat), data.length = 2 * wCnt →
      MB_MAX_REGISTERS < rCnt ∨ MB_MAX_REGISTERS < wCnt →
      serverStep dev (.request unit 0x17
        (readWriteRegsBody rOff rCnt wOff wCnt (2 * wCnt) data)) =
        illegalOutcome 0x17) := by
  refine ⟨fun h => ⟨?_, ?_⟩, fun h => ⟨?_, ?_⟩, fun data hd h => ?_,
    fun data hd h => ?_, fun rOff rCnt wOff wCnt data hd h => ?_⟩
  · exact serverStep_illegal _ _ _ _ (by
      rw [checkRequest_read_bits 1 offset count (Or.inl rfl), if_neg (by omega)])
  · exact serverStep_illegal _ _ _ _ (by
      rw [checkRequest_read_bits 2 offset count (Or.inr rfl), if_neg (by omega)])
  · exact serverStep_illegal _ _ _ _ (by
      rw [checkRequest_read_regs 3 offset count (Or.inl rfl), if_neg (by omega)])
  · exact serverStep_illegal _ _ _ _ (by
      rw [checkRequest_read_regs 4 offset count (Or.inr rfl), if_neg (by omega)])
  · exact serverStep_illegal _ _ _ _ (by
      rw [checkRequest_write_coils offset count data hd, if_neg (by omega)])
  · exact serverStep_illegal _ _ _ _ (by
      rw [checkRequest_write_regs offset count data hd, if_neg (by omega)])
  · exact serverStep_illegal _ _ _ _ (by
      rw [checkRequest_rw_regs rOff rCnt wOff wCnt data hd, if_neg (by
        rcases h with h | h <;> (intro hc; omega))])

/-- Witness for C1: ReadCoils with count 2001 and ReadHoldingRegisters with
count 126 both draw the 0x03 wire exception. -/
theorem claim1_bounded_quantity_exception_witness :
    serverStep (.Good, []) (.request 1 0x01 (readRequestBody 0 2001)) =
      illegalOutcome 0x01 ∧
    serverStep (.Good, []) (.request 1 0x03 (readRequestBody 0 126)) =
      illegalOutcome 0x03 :=
  ⟨((claim1_bounded_quantity_exception (.Good, []) 1 0 2001).1 (by decide)).1,
   ((claim1_bounded_quantity_exception (.Good, []) 1 0 126).2.1 (by decide)).1⟩

/-- Claim C2: for every function code with a fixed request-body length L, a
request whose body length differs from L yields `BadNotCorrectRequest` with no
wire response (no `write_buffer`, no Tx, device handler never called) and
exactly one Error and one Completed signal. -/
theorem claim2_fixed_length_mismatch (f L : Nat) (h : fixedBodyLen f = some L)
    (dev : StatusCode × List Nat) (unit : Nat) (body : List Nat)
    (hlen : body.length ≠ L) :
    serverStep dev (.request unit f body) = notCorrectOutcome := by
  apply serverStep_notCorrect
  unfold fixedBodyLen at h
  split at h
  · rename_i hf
    cases h
    rcases hf with rfl | rfl | rfl | rfl | rfl | rfl <;> simp [checkRequest, hlen]
  · split at h
    · rename_i hf
      cases h
      rcases hf with rfl | rfl | rfl | rfl <;> simp [checkRequest, hlen]
    · split at h
      · rename_i hf
        cases h
        subst hf
        simp [checkRequest, hlen]
      · split at h
        · rename_i hf
          cases h
          subst hf
          simp [checkRequest, hlen]
        · exact absurd h (by simp)

/-- Witness for C2: a three-byte ReadCoils body (expected four) is discarded
with no wire response. -/
theorem claim2_fixed_length_mismatch_witness :
    serverStep (.Good, []) (.request 1 0x01 [0, 0, 0]) = notCorrectOutcome :=
  claim2_fixed_length_mismatch 0x01 4 (by decide) (.Good, []) 1 [0, 0, 0]
    (by decide)

/-- Claim C3: a ReadWriteMultipleRegisters (0x17) request whose byteCount
disagrees with writeCount*2 is rejected as `BadNotCorrectRequest` with no wire
response, for every writeCount — including values exceeding MB_MAX_REGISTERS —
so the framing (byteCount-consistency) check fires before the quantity-bound
check. -/
theorem claim3_rwmr_bytecount_before_bounds (dev : StatusCode × List Nat)
    (unit rOff rCnt wOff wCnt bc : Nat) (data : List Nat)
    (hd : data.length = bc) (hbc : bc ≠ 2 * wCnt) :
    serverStep dev
      (.request unit 0x17 (readWriteRegsBody rOff rCnt wOff wCnt bc data)) =
      notCorrectOutcome :=
  serverStep_notCorrect dev unit 0x17 _
    (checkRequest_rw_regs_bc_mismatch rOff rCnt wOff wCnt bc data hd hbc)

/-- Witness for C3: the test's step-5 frame — writeCount 126 (over the bound)
with byteCount 4 — is discarded with no wire response. -/
theorem claim3_rwmr_bytecount_before_bounds_witness :
    serverStep (.Good, [])
      (.request 1 0x17 (readWriteRegsBody 3 3 14 126 4 [18, 52, 86, 120])) =
      notCorrectOutcome :=
  claim3_rwmr_bytecount_before_bounds (.Good, []) 1 3 3 14 126 4
    [18, 52, 86, 120] (by decide) (by decide)

/-- Claim C4: a valid request whose device handler returns
`BadGatewayPathUnavailable` produces no wire response at all (nothing staged,
no Tx, no Error), fires Completed once with status `Good`, makes `process()`
return `Good`, and leaves the machine back in the read state. -/
theorem claim4_gateway_silent_drop (resp : List Nat) (unit func : Nat)
    (body : List Nat) (hacc : checkRequest func body = .accept) :
    serverStep (.BadGatewayPathUnavailable, resp) (.request unit func body) =
      ⟨.Good, true, none, 1, 0, 0, 1, .Good, true⟩ := by
  simp [serverStep, hacc, StatusIsGood]

/-- Witness for C4 at a concrete ReadHoldingRegisters request. -/
theorem claim4_gateway_silent_drop_witness :
    serverStep (.BadGatewayPathUnavailable, []) (.request 1 3 [0, 0, 0, 16]) =
      ⟨.Good, true, none, 1, 0, 0, 1, .Good, true⟩ :=
  claim4_gateway_silent_drop [] 1 3 [0, 0, 0, 16] (by decide)

/-- Claim C5: every transaction — on the server state machine for any input
and device behaviour, and on the client port for any tries, broadcast setting,
unit and port behaviour — fires the Completed signal exactly once. -/
theorem claim5_completed_exactly_once :
    (∀ (dev : StatusCode × List Nat) (inp : ServerInput),
      (serverStep dev inp).completedCount = 1) ∧
    (∀ (tries : Nat) (b : Bool) (unit : Nat) (wres : StatusCode)
      (rres : Nat → StatusCode),
      (clientTransact tries b unit wres rres).completedCount = 1) := by
  constructor
  · intro dev inp
    cases inp with
    | readError s => rfl
    | bufferError s => rfl
    | request u f body =>
      simp only [serverStep]
      split
      · rfl
      · rfl
      · rfl
      · split
        · rfl
        · split
          · rfl
          · split <;> rfl
  · intro tries b unit wres rres
    simp only [clientTransact]
    split
    · split
      · rfl
      · split <;> rfl
    · rfl

/-- Counterexample to C6 as stated: with tries = 3 and the port failing the
read twice before succeeding, the transaction invokes `write_buffer` once,
not once per attempt (the claim asserts three `write_buffer` invocations for
three attempts). -/
theorem claim6_writebuffer_counterexample :
    (clientTransact 3 false 1 .Good
        (fun i => if i < 2 then .BadSerialReadTimeout else .Good)).writeBufferCalls
      = 1 ∧
    (clientTransact 3 false 1 .Good
        (fun i => if i < 2 then .BadSerialReadTimeout else .Good)).writeBufferCalls
      ≠ 3 := by
  decide

/-- Claim C6 (amended): with tries = T = n+1 and transport-class read failures
on the first T-1 attempts followed by a good read, the helper returns `Good`
with `last_tries() = T`, re-issuing `write()` and `read()` on each of the T
attempts while `write_buffer` is invoked exactly once per transaction; if all
T reads fail with transport errors the helper returns the last transport error
and `last_tries() = T`. -/
theorem claim6_retry_discipline_amended (n : Nat) (b : Bool) (unit : Nat)
    (rres : Nat → StatusCode) (hnb : ¬(unit = 0 ∧ b = true)) :
    ((∀ j, j < n → isTransportStatus (rres j) = true) →
      StatusIsGood (rres n) = true →
      clientTransact (n + 1) b unit .Good rres =
        ⟨.Good, 1, n + 1, n + 1, n + 1, n + 1, 1, 0, 1, .Good⟩) ∧
    ((∀ j, j ≤ n → isTransportStatus (rres j) = true) →
      clientTransact (n + 1) b unit .Good rres =
        ⟨rres n, 1, n + 1, n + 1, n + 1, n + 1, 0, 1, 1, rres n⟩) := by
  have hcond : (decide (unit = 0) && b) = false := by
    by_cases h0 : unit = 0
    · cases b
      · simp
      · exact absurd ⟨h0, rfl⟩ hnb
    · simp [h0]
  constructor
  · intro hbad hg
    have hgo := clientReadGo_first_good rres n 0 (n + 1) (by omega)
      (fun j hj => by simpa using transport_not_good _ (hbad j hj))
      (by simpa using hg)
    simp only [StatusIsGood] at hg
    simp [clientTransact, hcond, StatusIsGood, hgo, hg]
  · intro hbad
    have hgo := clientReadGo_all_bad rres n 0
      (fun j hj => by simpa using transport_not_good _ (hbad j hj))
    have hbn : StatusIsGood (rres n) = false :=
      transport_not_good _ (hbad n (by omega))
    simp only [StatusIsGood] at hbn
    simp [clientTransact, hcond, StatusIsGood, hgo, hbn]

/-- Witness for C6's amended statement: tries 3 with the serial-timeout
schedule of the repository's retry test. -/
theorem claim6_retry_discipline_amended_witness :
    clientTransact 3 false 1 .Good
        (fun i => if i < 2 then .BadSerialReadTimeout else .Good) =
      ⟨.Good, 1, 3, 3, 3, 3, 1, 0, 1, .Good⟩ :=
  (claim6_retry_discipline_amended 2 false 1
      (fun i => if i < 2 then .BadSerialReadTimeout else .Good)
      (by decide)).1 (by decide) (by decide)

/-- Claim C7: with broadcast enabled, a unit-0 transaction returns `Good`
right after the good `write()` with the read step skipped entirely (zero
`read()` calls, Tx and one Completed(Good), no Rx); with broadcast disabled, a
unit-0 transaction performs the full write-then-read cycle (one `read()` call,
Rx fired). -/
theorem claim7_broadcast_shortcut (tries : Nat) (rres : Nat → StatusCode) :
    (clientTransact tries true 0 .Good rres =
      ⟨.Good, 1, 1, 0, 1, 1, 0, 0, 1, .Good⟩) ∧
    (1 ≤ tries → StatusIsGood (rres 0) = true →
      clientTransact tries false 0 .Good rres =
        ⟨.Good, 1, 1, 1, 1, 1, 1, 0, 1, .Good⟩) := by
  constructor
  · simp [clientTransact, StatusIsGood]
  · intro htries hg
    obtain ⟨t, rfl⟩ := Nat.exists_eq_succ_of_ne_zero (by omega : tries ≠ 0)
    have hgo := clientReadGo_hit rres 0 t hg
    simp only [StatusIsGood] at hg
    simp [clientTransact, StatusIsGood, hgo, hg]

/-- Witness for C7's read-cycle conjunct at tries 1 with an immediately good
read. -/
theorem claim7_broadcast_shortcut_witness :
    clientTransact 1 false 0 .Good (fun _ => .Good) =
      ⟨.Good, 1, 1, 1, 1, 1, 1, 0, 1, .Good⟩ :=
  (claim7_broadcast_shortcut 1 (fun _ => .Good)).2 (by decide) (by decide)

/-- Claim C8: the shared client port admits at most one owner — a helper call
by any client other than the current owner returns `Processing` and leaves the
state untouched; whenever a call returns `Good` the ownership slot is cleared
afterwards; and the three-client scenario of the repository's test
(non-blocking port alternating Processing/Good) completes the clients in
first-call order, leaving `current_client()` null with exactly three Completed
signals. -/
theorem claim8_mux_single_owner :
    (∀ (rres : Nat → StatusCode) (st : MuxState) (c o : Nat),
      st.owner = some o → o ≠ c → muxCall rres st c = (st, .Processing)) ∧
    (∀ (rres : Nat → StatusCode) (st : MuxState) (c : Nat),
      (muxCall rres st c).2 = .Good → (muxCall rres st c).1.owner = none) ∧
    (muxRun muxTestSchedule muxInit [1, 2, 3, 1, 2, 3, 1, 2, 3, 1, 2, 3] =
      (⟨none, 6, 3, 3, 3⟩,
       [.Processing, .Processing, .Processing,
        .Good, .Processing, .Processing,
        .Processing, .Good, .Processing,
        .Processing, .Processing, .Good])) := by
  refine ⟨?_, ?_, by decide⟩
  · intro rres st c o howner hne
    simp only [muxCall, howner]
    rw [if_neg hne]
  · intro rres st c
    simp only [muxCall]
    split
    · rename_i o heq
      split
      · split
        · intro _
          rfl
        · split
          · intro h
            exact absurd h (by simp)
          · intro _
            rfl
      · intro h
        exact absurd h (by simp)
    · rename_i heq
      split
      · intro _
        exact heq
      · split
        · intro h
          exact absurd h (by simp)
        · intro _
          exact heq

/-- Witness for C8: a call by client 2 while client 1 owns the port returns
`Processing` and changes nothing. -/
theorem claim8_mux_single_owner_witness :
    muxCall muxTestSchedule ⟨some 1, 1, 1, 0, 0⟩ 2 =
      (⟨some 1, 1, 1, 0, 0⟩, .Processing) :=
  claim8_mux_single_owner.1 muxTestSchedule ⟨some 1, 1, 1, 0, 0⟩ 2 1 rfl
    (by decide)

/-- Claim C9: the server accepts unit u exactly when the map is null, or u is
broadcast (u = 0 with broadcast enabled) regardless of the map's contents, or
bit u of the 256-bit map is set. -/
theorem claim9_unit_acceptance (s : ServerPortSettings) (u : Nat) :
    isUnitEnabled s u = true ↔
      (s.unitmap = none ∨ (u = 0 ∧ s.broadcastEnabled = true) ∨
        ∃ m, s.unitmap = some m ∧ unitmapGetBit m u = true) := by
  cases hm : s.unitmap with
  | none => simp [isUnitEnabled, hm]
  | some m => simp [isUnitEnabled, hm, isBroadcast]

/-- Claim C10: enabling or disabling one unit on a server whose map is null
first materialises a fresh all-zero 32-byte map, so acceptance collapses from
accept-all to: only the touched unit (when enabled) plus broadcast, and only
broadcast when the unit was disabled. -/
theorem claim10_set_unit_on_null_map (s : ServerPortSettings) (u v : Nat)
    (hmap : s.unitmap = none) (hu : u < 256) (hv : v < 256) :
    (setUnitEnabled s u true).unitmap ≠ none ∧
    isUnitEnabled (setUnitEnabled s u true) v =
      (decide (v = u) || isBroadcast s v) ∧
    isUnitEnabled (setUnitEnabled s u false) v = isBroadcast s v := by
  refine ⟨?_, ?_, ?_⟩
  · simp [setUnitEnabled, hmap]
  · simp only [setUnitEnabled, hmap, Option.getD_none, isUnitEnabled,
      getBit_set_zero u v true hu hv, isBroadcast, Bool.and_true]
    cases hb : s.broadcastEnabled <;> cases hv0 : (v == 0) <;>
      cases hvu : decide (v = u) <;> simp
  · simp only [setUnitEnabled, hmap, Option.getD_none, isUnitEnabled,
      getBit_set_zero u v false hu hv, isBroadcast, Bool.and_false,
      Bool.or_false]

/-- Witness for C10 at broadcast-enabled settings, unit 5 toggled, probe
unit 7. -/
theorem claim10_set_unit_on_null_map_witness :
    (setUnitEnabled ⟨true, none⟩ 5 true).unitmap ≠ none ∧
    isUnitEnabled (setUnitEnabled ⟨true, none⟩ 5 true) 7 =
      (decide (7 = 5) || isBroadcast ⟨true, none⟩ 7) ∧
    isUnitEnabled (setUnitEnabled ⟨true, none⟩ 5 false) 7 =
      isBroadcast ⟨true, none⟩ 7 :=
  claim10_set_unit_on_null_map ⟨true, none⟩ 5 7 rfl (by decide) (by decide)

end ModbusLib
